import Mathlib

/-!
Verification of the Novel Diver interactive-fiction core against its
specification.  The Python modules `character.py`, `decision.py`,
`config.py`, `story_engine.py` and `app.py` are shallowly embedded below:
pure functions become Lean functions on `String`/`List`, Python strings are
modelled through their code-point sequences (`String.data`), the impure
parts (wall-clock timestamps, backend calls, `time.sleep`) are modelled by
explicit parameters and explicit output observations, and fallible code
returns `Except`.

Modelling conventions for Python string primitives (restricted to the
ASCII behaviour, which is all the repository relies on):
* `str.strip()`  — remove leading/trailing characters from the ASCII
  whitespace set. (`pyStrip`)
* `str.split(sep)` — non-overlapping left-to-right splitting on a
  non-empty separator, keeping empty segments. (`pySplit`)
* `str.lower()` / `str.title()` — ASCII case mapping. (`pyLower`, `pyTitle`)
-/

/-- ASCII whitespace as recognised by Python `str.strip` / `\s`. -/
def isPySpace (c : Char) : Bool :=
  c = ' ' || c = '\t' || c = '\n' || c = '\r' || c = '\x0b' || c = '\x0c'

/-- Python `str.strip()` on a character list: drop whitespace from both ends. -/
def pyStripList (l : List Char) : List Char :=
  ((l.dropWhile isPySpace).reverse.dropWhile isPySpace).reverse

/-- Python `str.strip()`. -/
def pyStrip (s : String) : String :=
  String.mk (pyStripList s.data)

/-- Python `str.lower()` (ASCII case mapping). -/
def pyLower (s : String) : String :=
  String.mk (s.data.map Char.toLower)

/-- Fuel-driven core of Python `str.split(sep)` for a non-empty `sep`:
scan left to right, at each position either consume a separator occurrence
(starting a new segment) or move one character into the current segment.
With `fuel ≥ l.length` the fuel never runs out. -/
def pySplitCore (sep : List Char) : Nat → List Char → List (List Char)
  | _, [] => [[]]
  | 0, l => [l]
  | fuel + 1, c :: cs =>
    if sep.isPrefixOf (c :: cs) then
      [] :: pySplitCore sep fuel ((c :: cs).drop sep.length)
    else
      match pySplitCore sep fuel cs with
      | [] => [[c]]
      | seg :: rest => (c :: seg) :: rest

/-- Python `str.split(sep)` for a non-empty separator. -/
def pySplit (sep : String) (s : String) : List String :=
  (pySplitCore sep.data s.data.length s.data).map String.mk

/-- Membership test for a contiguous substring, as used by Python's
`in` operator on strings. -/
def containsSub (needle : List Char) : List Char → Bool
  | [] => needle.isEmpty
  | c :: cs => needle.isPrefixOf (c :: cs) || containsSub needle cs

/-- A separator with no self-overlap: no non-empty proper suffix of it is
also a prefix of it.  Occurrences of such a separator in a string can never
overlap each other, so Python's non-overlapping `str.split` finds exactly
the occurrences. -/
def noSelfOverlap (sep : List Char) : Prop :=
  ∀ k, k < sep.length → 0 < k → sep.drop k ≠ sep.take (sep.length - k)

/-- Core of Python `str.title()` (ASCII): the boolean records whether the
previous character was alphabetic; an alphabetic character is uppercased
after a non-alphabetic one and lowercased otherwise. -/
def pyTitleCore : Bool → List Char → List Char
  | _, [] => []
  | prev, c :: cs =>
    if c.isAlpha then
      (if prev then c.toLower else c.toUpper) :: pyTitleCore true cs
    else
      c :: pyTitleCore false cs

/-- Python `str.title()` (ASCII case mapping). -/
def pyTitle (s : String) : String :=
  String.mk (pyTitleCore false s.data)

/-!  ## Character (`character.py`)  -/

/-- Embedding of the `Character` dataclass from `character.py`. -/
structure Character where
  name : String
  background : String
  traits : List String
  goals : String
  world : String
deriving DecidableEq

/-- Embedding of `Character.to_prompt`: the f-string rendered by the Python
code (with its leading and trailing newline) followed by `.strip()`. -/
def Character.to_prompt (c : Character) : String :=
  pyStrip
    (("\nPROTAGONIST PROFILE:\nName: ") ++ c.name ++
     ("\nWorld: ") ++ pyTitle c.world ++
     ("\nBackground: ") ++ c.background ++
     ("\nPersonality Traits: ") ++
     (if c.traits = [] then ("No specific traits defined")
      else String.intercalate (", ") c.traits) ++
     ("\nGoals & Motivations: ") ++ c.goals ++
     ("\n\nThis character is the protagonist of the story. All narrative should be written from their perspective or about their actions and decisions.\n"))

/-- Embedding of `Character.validate`: each check appends an issue string
in the order of the Python code; the first component models
`len(issues) == 0`. -/
def Character.validate (c : Character) : Bool × List String :=
  let issues : List String := []
  let issues := if c.name = ("") ∨ (pyStrip c.name).length < 2 then
      issues ++ [("Name must be at least 2 characters long")] else issues
  let issues := if c.background = ("") ∨ (pyStrip c.background).length < 10 then
      issues ++ [("Background must be at least 10 characters long")] else issues
  let issues := if c.goals = ("") ∨ (pyStrip c.goals).length < 10 then
      issues ++ [("Goals must be at least 10 characters long")] else issues
  let issues := if c.world = ("") then
      issues ++ [("World must be specified")] else issues
  let issues := if 100 < c.name.length then
      issues ++ [("Name is too long (max 100 characters)")] else issues
  let issues := if 1000 < c.background.length then
      issues ++ [("Background is too long (max 1000 characters)")] else issues
  let issues := if 500 < c.goals.length then
      issues ++ [("Goals are too long (max 500 characters)")] else issues
  (issues.length == 0, issues)

/-!  ## Response parser (`story_engine.py`, `StoryEngine._parse_response`)  -/

/-- Model of `re.match(r'^[1-4][\.\)]\s*(.+)', line)` followed by
`match.group(1).strip()` on an argument line.  The regex matches when the
line starts with a digit `1`-`4`, then `.` or `)`, and at least one further
character follows (`\s*` backtracks so that `(.+)` can always take one
character when the remainder is non-empty).  The captured group after
`.strip()` equals the stripped remainder of the line. -/
def reMatchOption (line : String) : Option String :=
  match line.data with
  | c1 :: c2 :: rest =>
    if (c1 = '1' ∨ c1 = '2' ∨ c1 = '3' ∨ c1 = '4') ∧ (c2 = '.' ∨ c2 = ')') ∧ rest ≠ [] then
      some (pyStrip (String.mk rest))
    else none
  | _ => none

/-- The four generic fallback options returned when no delimiter is found. -/
def genericFallback : List String :=
  [("Continue cautiously"), ("Take a bold approach"),
   ("Seek more information"), ("Try a creative solution")]

/-- The fixed ordered list used to pad a short recovered option list. -/
def padOptions : List String :=
  [("Take a different approach"), ("Wait and observe"),
   ("Act decisively"), ("Seek help from others")]

/-- The option-extraction loop of `_parse_response`: split the option text
on newlines, strip each line, keep the regex captures in document order. -/
def extractOptions (options_text : String) : List String :=
  (pySplit ("\n") options_text).filterMap (fun line => reMatchOption (pyStrip line))

/-- The final normalisation of `_parse_response`: pad with the generic
list up to exactly 4 options, or truncate to the first 4. -/
def clampOptions (options : List String) : List String :=
  if options.length < 4 then options ++ padOptions.take (4 - options.length)
  else options.take 4

/-- Embedding of `StoryEngine._parse_response`: split on `DECISION_POINT`;
with fewer than two parts return the stripped input with the generic
fallback options, otherwise parse options from the part between the first
and second occurrence of the delimiter. -/
def parse_response (response : String) : String × List String :=
  match pySplit ("DECISION_POINT") response with
  | p0 :: p1 :: _ => (pyStrip p0, clampOptions (extractOptions (pyStrip p1)))
  | _ => (pyStrip response, genericFallback)

/-!  ## Retry with backoff (`config.py`, `Config.retry_with_backoff`)  -/

/-- The rate-limit indicator substrings of `Config.retry_with_backoff`. -/
def rateLimitKeywords : List String :=
  [("rate limit"), ("429"), ("quota"), ("too many requests")]

/-- `any(keyword in str(e).lower() for keyword in [...])`. -/
def isRateLimit (msg : String) : Bool :=
  rateLimitKeywords.any (fun kw => containsSub kw.data (pyLower msg).data)

/-- Loop of `Config.retry_with_backoff`.  The operation is modelled as a
function of its invocation index (call number `attempt` is the behaviour
of the `attempt`-th call); `time.sleep` is modelled by recording the
requested delays; the final `Nat` counts how many times the operation was
invoked.  `remaining` is `max_retries - attempt`: when it reaches zero the
Python loop is at its last iteration and re-raises any error. -/
def retryGo {α : Type} (func : Nat → Except String α) (base_delay : ℚ) :
    Nat → Nat → List ℚ → Nat → Except String α × List ℚ × Nat
  | 0, attempt, sleeps, calls =>
    match func attempt with
    | Except.ok v => (Except.ok v, sleeps, calls + 1)
    | Except.error e => (Except.error e, sleeps, calls + 1)
  | remaining + 1, attempt, sleeps, calls =>
    match func attempt with
    | Except.ok v => (Except.ok v, sleeps, calls + 1)
    | Except.error e =>
      if isRateLimit e then
        retryGo func base_delay remaining (attempt + 1)
          (sleeps ++ [base_delay * 2 ^ attempt]) (calls + 1)
      else (Except.error e, sleeps, calls + 1)

/-- Embedding of `Config.retry_with_backoff(func, max_retries, base_delay)`.
Returns the propagated result together with the list of sleep durations
(seconds, exact rationals) and the number of invocations of `func`. -/
def retry_with_backoff {α : Type} (func : Nat → Except String α)
    (max_retries : Nat) (base_delay : ℚ) : Except String α × List ℚ × Nat :=
  retryGo func base_delay max_retries 0 [] 0

/-!  ## Story history data model (`decision.py`)

Wall-clock values are impure; every operation that reads `datetime.now()`
takes the current time as an explicit parameter.  A `datetime` value is
identified with its ISO-8601 rendering, since the repository only ever
moves timestamps through `isoformat`/`fromisoformat`, which the Python
documentation guarantees to round-trip. -/

/-- Model of a `datetime.datetime` value via its ISO-8601 rendering. -/
structure DateTime where
  iso : String
deriving DecidableEq

/-- `datetime.isoformat()`. -/
def DateTime.isoformat (d : DateTime) : String := d.iso

/-- `datetime.fromisoformat(s)` (total on the strings this repository
produces, which are all `isoformat` outputs). -/
def DateTime.fromisoformat (s : String) : DateTime := DateTime.mk s

/-- JSON values as produced by `json.dumps`/`json.loads` for the trees this
repository serialises (strings, integers, arrays, objects). -/
inductive Json where
  | str (s : String)
  | num (n : Int)
  | arr (elems : List Json)
  | obj (fields : List (String × Json))

/-- Python `data[key]` on a dict: `KeyError` when absent. -/
def Json.lookupKey : Json → String → Except String Json
  | Json.obj fields, key =>
    match fields.lookup key with
    | some v => Except.ok v
    | none => Except.error (("KeyError: ") ++ key)
  | _, key => Except.error (("KeyError: ") ++ key)

/-- Python `data.get(key, default)`. -/
def Json.lookupKeyD : Json → String → Json → Json
  | Json.obj fields, key, d => (fields.lookup key).getD d
  | _, _, d => d

/-- Dynamic use of a JSON value as a string. -/
def Json.asStr : Json → Except String String
  | Json.str s => Except.ok s
  | _ => Except.error ("TypeError: expected str")

/-- Dynamic use of a JSON value as an integer. -/
def Json.asInt : Json → Except String Int
  | Json.num n => Except.ok n
  | _ => Except.error ("TypeError: expected int")

/-- Dynamic use of a JSON value as a list. -/
def Json.asArr : Json → Except String (List Json)
  | Json.arr l => Except.ok l
  | _ => Except.error ("TypeError: expected list")

/-- Embedding of the `StoryChunk` dataclass. -/
structure StoryChunk where
  text : String
  timestamp : DateTime
  chunk_id : String
  decision_options : List String
deriving DecidableEq

/-- `StoryChunk.to_dict`. -/
def StoryChunk.to_dict (c : StoryChunk) : Json :=
  Json.obj [(("text"), Json.str c.text),
            (("timestamp"), Json.str c.timestamp.isoformat),
            (("chunk_id"), Json.str c.chunk_id),
            (("decision_options"), Json.arr (c.decision_options.map Json.str))]

/-- `StoryChunk.from_dict`: `text`, `timestamp` and `chunk_id` are
required keys (`KeyError` when absent); `decision_options` defaults to the
empty list. -/
def StoryChunk.from_dict (j : Json) : Except String StoryChunk := do
  let text ← (← j.lookupKey ("text")).asStr
  let ts ← (← j.lookupKey ("timestamp")).asStr
  let cid ← (← j.lookupKey ("chunk_id")).asStr
  let optsJ ← (j.lookupKeyD ("decision_options") (Json.arr [])).asArr
  let opts ← optsJ.mapM Json.asStr
  pure { text := text, timestamp := DateTime.fromisoformat ts,
         chunk_id := cid, decision_options := opts }

/-- Embedding of the `DecisionEntry` dataclass. -/
structure DecisionEntry where
  decision_text : String
  options_available : List String
  chosen_index : Int
  timestamp : DateTime
deriving DecidableEq

/-- `DecisionEntry.to_dict`. -/
def DecisionEntry.to_dict (d : DecisionEntry) : Json :=
  Json.obj [(("decision_text"), Json.str d.decision_text),
            (("options_available"), Json.arr (d.options_available.map Json.str)),
            (("chosen_index"), Json.num d.chosen_index),
            (("timestamp"), Json.str d.timestamp.isoformat)]

/-- `DecisionEntry.from_dict`: all four keys are required. -/
def DecisionEntry.from_dict (j : Json) : Except String DecisionEntry := do
  let dt ← (← j.lookupKey ("decision_text")).asStr
  let optsJ ← (← j.lookupKey ("options_available")).asArr
  let opts ← optsJ.mapM Json.asStr
  let ci ← (← j.lookupKey ("chosen_index")).asInt
  let ts ← (← j.lookupKey ("timestamp")).asStr
  pure { decision_text := dt, options_available := opts,
         chosen_index := ci, timestamp := DateTime.fromisoformat ts }

/-- Embedding of the `StoryHistory` dataclass. -/
structure StoryHistory where
  session_id : String
  character_name : String
  world_type : String
  story_chunks : List StoryChunk
  decisions : List DecisionEntry
  created_at : DateTime
  last_updated : DateTime
deriving DecidableEq

/-- `StoryHistory.add_story_chunk(text, options)`: the fresh chunk's
timestamp and generated id are explicit parameters (both read the clock in
Python); `options or []` maps `None` to the empty list. -/
def StoryHistory.add_story_chunk (h : StoryHistory) (text : String)
    (options : Option (List String)) (now : DateTime) (chunk_id : String) :
    StoryHistory × StoryChunk :=
  let chunk : StoryChunk :=
    { text := text, timestamp := now, chunk_id := chunk_id,
      decision_options := options.getD [] }
  ({ h with story_chunks := h.story_chunks ++ [chunk], last_updated := now }, chunk)

/-- `StoryHistory.add_decision(decision_text, available_options,
chosen_index)` with the clock passed explicitly. -/
def StoryHistory.add_decision (h : StoryHistory) (decision_text : String)
    (available_options : List String) (chosen_index : Int) (now : DateTime) :
    StoryHistory × DecisionEntry :=
  let decision : DecisionEntry :=
    { decision_text := decision_text, options_available := available_options,
      chosen_index := chosen_index, timestamp := now }
  ({ h with decisions := h.decisions ++ [decision], last_updated := now }, decision)

/-- `StoryHistory.get_recent_context(num_chunks)`.  The Python slice
`story_chunks[-num_chunks:]` keeps the last `num_chunks` elements when
`num_chunks ≥ 1` but the WHOLE list when `num_chunks == 0` (since `-0 == 0`);
the branch on `num_chunks = 0` reproduces that.  When at least one decision
exists and the chunks outnumber the decisions, a last-decision line is
appended before joining with blank lines. -/
def StoryHistory.get_recent_context (h : StoryHistory) (num_chunks : Nat) : String :=
  if h.story_chunks = [] then ("")
  else
    let recent := if num_chunks = 0 then h.story_chunks
                  else h.story_chunks.drop (h.story_chunks.length - num_chunks)
    let context_parts := recent.map StoryChunk.text
    let context_parts :=
      if h.decisions ≠ [] ∧ h.decisions.length < h.story_chunks.length then
        context_parts ++
          [("\n[Last Decision: ") ++
           ((h.decisions.getLast?.map DecisionEntry.decision_text).getD ("")) ++ ("]")]
      else context_parts
    String.intercalate ("\n\n") context_parts

/-- `StoryHistory.to_dict`. -/
def StoryHistory.to_dict (h : StoryHistory) : Json :=
  Json.obj [(("session_id"), Json.str h.session_id),
            (("character_name"), Json.str h.character_name),
            (("world_type"), Json.str h.world_type),
            (("story_chunks"), Json.arr (h.story_chunks.map StoryChunk.to_dict)),
            (("decisions"), Json.arr (h.decisions.map DecisionEntry.to_dict)),
            (("created_at"), Json.str h.created_at.isoformat),
            (("last_updated"), Json.str h.last_updated.isoformat)]

/-- `StoryHistory.to_json` composes `to_dict` with `json.dumps`;
`StoryHistory.from_json` composes `json.loads` with `from_dict`.  The
Python standard library guarantees `json.loads(json.dumps(v)) == v` for
the trees of dicts/lists/strings/ints produced here, so serialisation is
modelled at the JSON-value level and the dumps/loads pair contributes the
identity. -/
def StoryHistory.to_json (h : StoryHistory) : Json := h.to_dict

/-- `StoryHistory.from_dict`: `session_id`, `character_name`, `world_type`,
`created_at` and `last_updated` are required keys; `story_chunks` and
`decisions` default to empty lists. -/
def StoryHistory.from_dict (j : Json) : Except String StoryHistory := do
  let sid ← (← j.lookupKey ("session_id")).asStr
  let cname ← (← j.lookupKey ("character_name")).asStr
  let wt ← (← j.lookupKey ("world_type")).asStr
  let chunksJ ← (j.lookupKeyD ("story_chunks") (Json.arr [])).asArr
  let chunks ← chunksJ.mapM StoryChunk.from_dict
  let decisionsJ ← (j.lookupKeyD ("decisions") (Json.arr [])).asArr
  let decisions ← decisionsJ.mapM DecisionEntry.from_dict
  let ca ← (← j.lookupKey ("created_at")).asStr
  let lu ← (← j.lookupKey ("last_updated")).asStr
  pure { session_id := sid, character_name := cname, world_type := wt,
         story_chunks := chunks, decisions := decisions,
         created_at := DateTime.fromisoformat ca,
         last_updated := DateTime.fromisoformat lu }

/-- `StoryHistory.from_json` (see `StoryHistory.to_json`). -/
def StoryHistory.from_json (j : Json) : Except String StoryHistory :=
  StoryHistory.from_dict j

/-!  ## Session lifecycle (`app.py`)

The Streamlit session state relevant to the history invariant is the
current `StoryHistory`, `current_options` and `waiting_for_choice`.  A
missing history (`None`) is modelled by an empty fresh history, which has
the same chunk/decision counts.  The outcome of one generation attempt by
the engine is an explicit parameter: the generated text and options on
success, engine unavailability (`engine.is_available()` false), or an
exception escaping into the `except` handler. -/

/-- Outcome of one generation attempt as observed by `app.py`. -/
inductive GenOutcome where
  | ok (text : String) (options : List String)
  | unavailable
  | raised (msg : String)
deriving DecidableEq

/-- The story-relevant part of `st.session_state`. -/
structure SessionState where
  history : StoryHistory
  current_options : List String
  waiting_for_choice : Bool
deriving DecidableEq

/-- Embedding of `app.make_decision(choice_index)`: an empty option list or
an out-of-range index aborts with no state change; otherwise the decision
is recorded FIRST, and only on a successful generation outcome is a new
chunk appended and the options replaced.  On `unavailable` or `raised` the
function returns with the decision recorded and everything else unchanged,
exactly as the Python code does. -/
def make_decision (s : SessionState) (choice_index : Nat) (outcome : GenOutcome)
    (now : DateTime) (chunk_id : String) : SessionState :=
  if s.current_options = [] ∨ s.current_options.length ≤ choice_index then s
  else
    let chosen := (s.current_options[choice_index]?).getD ("")
    let h1 := (s.history.add_decision chosen s.current_options (Int.ofNat choice_index) now).1
    match outcome with
    | GenOutcome.unavailable => { s with history := h1 }
    | GenOutcome.raised _ => { s with history := h1 }
    | GenOutcome.ok text opts =>
      { history := (h1.add_story_chunk text (some opts) now chunk_id).1,
        current_options := opts,
        waiting_for_choice := true }

/-- Embedding of `app.start_new_story(character)`: a fresh history is
installed unconditionally; on failure (`unavailable` engine or an escaped
exception) the function returns WITHOUT touching `current_options` or
`waiting_for_choice`, as the Python code does; on success the first chunk
is appended and the options installed. -/
def start_new_story (s : SessionState) (character_name world session_id : String)
    (outcome : GenOutcome) (now : DateTime) (chunk_id : String) : SessionState :=
  let fresh : StoryHistory :=
    { session_id := session_id, character_name := character_name, world_type := world,
      story_chunks := [], decisions := [], created_at := now, last_updated := now }
  match outcome with
  | GenOutcome.unavailable => { s with history := fresh }
  | GenOutcome.raised _ => { s with history := fresh }
  | GenOutcome.ok text opts =>
    { history := (fresh.add_story_chunk text (some opts) now chunk_id).1,
      current_options := opts, waiting_for_choice := true }

/-- A concrete history with two chunks (texts `"A"`, `"B"`) and one
decision (`"go"`), used as a test input: its newest chunk is awaiting a
decision, so `get_recent_context` appends a last-decision line. -/
def cexHistory : StoryHistory :=
  { session_id := ("s"), character_name := ("n"), world_type := ("fantasy"),
    story_chunks :=
      [{ text := ("A"), timestamp := DateTime.mk ("t1"), chunk_id := ("c1"),
         decision_options := [] },
       { text := ("B"), timestamp := DateTime.mk ("t2"), chunk_id := ("c2"),
         decision_options := [] }],
    decisions :=
      [{ decision_text := ("go"), options_available := [("go"), ("stay")],
         chosen_index := 0, timestamp := DateTime.mk ("t3") }],
    created_at := DateTime.mk ("t0"), last_updated := DateTime.mk ("t3") }

/-- The initial session state (`initialize_session_state` with no story). -/
def initSessionState : SessionState :=
  { history :=
      { session_id := (""), character_name := (""), world_type := (""),
        story_chunks := [], decisions := [],
        created_at := DateTime.mk (""), last_updated := DateTime.mk ("") },
    current_options := [], waiting_for_choice := false }

/-- The session state reached by: a successful story start (one chunk,
four options), then two decision clicks while the generation backend is
unavailable.  `make_decision` records each decision BEFORE discovering
that no chunk can be generated, so this trace is reachable through the
plain decision button (options stay populated after a failure) or the
retry button, which re-invokes `make_decision`. -/
def failedRetryTrace : SessionState :=
  make_decision
    (make_decision
      (start_new_story initSessionState ("Hero") ("fantasy") ("sid")
        (GenOutcome.ok ("Once upon a time") [("a"), ("b"), ("c"), ("d")])
        (DateTime.mk ("t0")) ("chunk0"))
      0 GenOutcome.unavailable (DateTime.mk ("t1")) ("chunk1"))
    0 GenOutcome.unavailable (DateTime.mk ("t2")) ("chunk2")


theorem pyStripList_nil : pyStripList [] = [] := rfl

/-- `containsSub` agrees with `List.IsInfix`. -/
theorem containsSub_correct (needle : List Char) :
    ∀ hay : List Char, containsSub needle hay = true ↔ needle <:+: hay := by
  intro hay
  induction hay with
  | nil =>
    simp [containsSub, List.isEmpty_iff, List.infix_nil]
  | cons c cs ih =>
    simp only [containsSub, Bool.or_eq_true, ih]
    constructor
    · rintro (h | h)
      · exact (List.isPrefixOf_iff_prefix.mp h).isInfix
      · exact List.infix_cons h
    · intro h
      rcases List.infix_cons_iff.mp h with h | h
      · exact Or.inl (List.isPrefixOf_iff_prefix.mpr h)
      · exact Or.inr h

theorem string_data_append (a b : String) : (a ++ b).data = a.data ++ b.data := rfl

theorem string_mk_data (s : String) : String.mk s.data = s := rfl

/-- The delimiter used by the story engine has no self-overlap. -/
theorem decisionPoint_noSelfOverlap : noSelfOverlap (String.data ("DECISION_POINT")) := by
  unfold noSelfOverlap
  decide

theorem pySplitCore_nil (sep : List Char) (fuel : Nat) :
    pySplitCore sep fuel [] = [[]] := by
  cases fuel <;> rfl

/-- With enough fuel, `pySplitCore` does not depend on the exact fuel value. -/
theorem pySplitCore_fuel (sep : List Char) (hne : sep ≠ []) :
    ∀ fuel₁ fuel₂ l, l.length ≤ fuel₁ → l.length ≤ fuel₂ →
      pySplitCore sep fuel₁ l = pySplitCore sep fuel₂ l := by
  intro fuel₁
  induction fuel₁ with
  | zero =>
    intro fuel₂ l h1 _
    have : l = [] := List.eq_nil_of_length_eq_zero (Nat.le_zero.mp h1)
    subst this
    simp [pySplitCore_nil]
  | succ f1 ih =>
    intro fuel₂ l h1 h2
    cases l with
    | nil => simp [pySplitCore_nil]
    | cons c cs =>
      cases fuel₂ with
      | zero => simp at h2
      | succ f2 =>
        have hsep : 1 ≤ sep.length := by
          cases sep with
          | nil => exact absurd rfl hne
          | cons x xs => simp
        simp only [pySplitCore]
        by_cases hp : sep.isPrefixOf (c :: cs) = true
        · simp only [hp, if_true]
          have hlen : ((c :: cs).drop sep.length).length ≤ f1 := by
            simp only [List.length_drop, List.length_cons] at *
            omega
          have hlen2 : ((c :: cs).drop sep.length).length ≤ f2 := by
            simp only [List.length_drop, List.length_cons] at *
            omega
          rw [ih _ _ hlen hlen2]
        · have hpf : sep.isPrefixOf (c :: cs) = false := by
            cases h : sep.isPrefixOf (c :: cs) with
            | false => rfl
            | true => exact absurd h hp
          have hcs1 : cs.length ≤ f1 := by
            simp only [List.length_cons] at h1
            omega
          have hcs2 : cs.length ≤ f2 := by
            simp only [List.length_cons] at h2
            omega
          simp only [hpf, Bool.false_eq_true, if_false]
          rw [ih _ _ hcs1 hcs2]

/-- If the separator occurs nowhere in the input, the split is the whole
input as a single segment (Python: `s.split(sep) == [s]`). -/
theorem pySplitCore_whole (sep : List Char) :
    ∀ fuel l, ¬ (sep <:+: l) → pySplitCore sep fuel l = [l] := by
  intro fuel
  induction fuel with
  | zero =>
    intro l _
    cases l with
    | nil => rfl
    | cons c cs => rfl
  | succ f ih =>
    intro l hl
    cases l with
    | nil => rfl
    | cons c cs =>
      have hp : sep.isPrefixOf (c :: cs) = false := by
        by_contra h
        have := List.isPrefixOf_iff_prefix.mp (Bool.not_eq_false _ ▸ h)
        exact hl this.isInfix
      have hcs : ¬ (sep <:+: cs) := fun h => hl (List.infix_cons h)
      simp only [pySplitCore, hp, Bool.false_eq_true, if_false, ih cs hcs]

/-- Key overlap argument: for a separator with no self-overlap, the
explicit occurrence in `a ++ (sep ++ b)` cannot be preceded by an earlier
occurrence when `sep` does not occur inside `a`. -/
theorem not_prefix_append_of_noSelfOverlap (sep a b : List Char)
    (hso : noSelfOverlap sep) (ha_ne : a ≠ []) (hnin : ¬ (sep <:+: a)) :
    ¬ (sep <+: (a ++ (sep ++ b))) := by
  intro h
  rcases le_or_lt sep.length a.length with hle | hlt
  · have htake : sep = (a ++ (sep ++ b)).take sep.length := List.prefix_iff_eq_take.mp h
    rw [List.take_append_of_le_length hle] at htake
    have : sep <+: a := htake ▸ List.take_prefix _ _
    exact hnin this.isInfix
  · obtain ⟨t, ht⟩ := h
    have hdrop := congrArg (List.drop a.length) ht
    rw [List.drop_left] at hdrop
    rw [List.drop_append_of_le_length (Nat.le_of_lt hlt)] at hdrop
    have htk := congrArg (List.take (sep.length - a.length)) hdrop
    have hdl : (sep.drop a.length).length = sep.length - a.length := List.length_drop _ _
    rw [List.take_append_of_le_length (Nat.le_of_eq hdl.symm)] at htk
    rw [List.take_of_length_le (le_of_eq hdl), List.take_append_of_le_length (Nat.sub_le _ _)] at htk
    have hpos : 0 < a.length := by
      cases a with
      | nil => exact absurd rfl ha_ne
      | cons x xs => simp
    exact hso a.length hlt hpos htk

/-- Splitting `a ++ sep ++ b` where `sep` does not occur in `a`: the first
segment is exactly `a`. -/
theorem pySplitCore_append (sep : List Char) (hso : noSelfOverlap sep) (hne : sep ≠ [])
    (b : List Char) :
    ∀ a fuel, ¬ (sep <:+: a) → (a ++ (sep ++ b)).length ≤ fuel →
      pySplitCore sep fuel (a ++ (sep ++ b)) = a :: pySplitCore sep b.length b := by
  intro a
  induction a with
  | nil =>
    intro fuel _ hfuel
    simp only [List.nil_append] at *
    have hsep : 1 ≤ sep.length := by
      cases sep with
      | nil => exact absurd rfl hne
      | cons x xs => simp
    cases fuel with
    | zero =>
      simp only [List.length_append] at hfuel
      omega
    | succ f =>
      cases hs : sep with
      | nil => exact absurd hs hne
      | cons s0 srest =>
        rw [← hs]
        have hcons : sep ++ b = s0 :: (srest ++ b) := by rw [hs]; rfl
        rw [hcons]
        have hp : sep.isPrefixOf (s0 :: (srest ++ b)) = true := by
          rw [← hcons]
          exact List.isPrefixOf_iff_prefix.mpr (List.prefix_append _ _)
        simp only [pySplitCore, hp, if_true]
        rw [← hcons, List.drop_left]
        have hbf : b.length ≤ f := by
          rw [hcons] at hfuel
          simp only [List.length_cons, List.length_append] at hfuel
          omega
        rw [pySplitCore_fuel sep hne f b.length b hbf (Nat.le_refl _)]
  | cons c a' ih =>
    intro fuel hnin hfuel
    have hstep : (c :: a') ++ (sep ++ b) = c :: (a' ++ (sep ++ b)) := rfl
    cases fuel with
    | zero =>
      rw [hstep] at hfuel
      simp at hfuel
    | succ f =>
      rw [hstep]
      have hp : sep.isPrefixOf (c :: (a' ++ (sep ++ b))) = false := by
        by_contra hcon
        have hpre := List.isPrefixOf_iff_prefix.mp (Bool.not_eq_false _ ▸ hcon)
        rw [← hstep] at hpre
        exact not_prefix_append_of_noSelfOverlap sep (c :: a') b hso
          (List.cons_ne_nil c a') hnin hpre
      have hnin' : ¬ (sep <:+: a') := fun h => hnin (List.infix_cons h)
      have hf' : (a' ++ (sep ++ b)).length ≤ f := by
        rw [hstep] at hfuel
        simp only [List.length_cons] at hfuel
        omega
      simp only [pySplitCore, hp, Bool.false_eq_true, if_false, ih f hnin' hf']

/-- If the separator does not occur in `s`, splitting keeps `s` whole
(Python: `s.split(sep) == [s]`). -/
theorem pySplit_of_not_contains (sep s : String) (h : ¬ (sep.data <:+: s.data)) :
    pySplit sep s = [s] := by
  unfold pySplit
  rw [pySplitCore_whole sep.data _ s.data h]
  simp [string_mk_data]

/-- Splitting `a ++ sep ++ b` for a no-self-overlap separator occurring in
neither part yields exactly the two parts. -/
theorem pySplit_double (sep a b : String) (hso : noSelfOverlap sep.data)
    (hne : sep.data ≠ []) (ha : ¬ (sep.data <:+: a.data)) (hb : ¬ (sep.data <:+: b.data)) :
    pySplit sep (a ++ sep ++ b) = [a, b] := by
  unfold pySplit
  have hdata : (a ++ sep ++ b).data = a.data ++ (sep.data ++ b.data) := by
    rw [string_data_append, string_data_append, List.append_assoc]
  rw [hdata]
  rw [pySplitCore_append sep.data hso hne b.data a.data _ ha (Nat.le_refl _)]
  rw [pySplitCore_whole sep.data _ b.data hb]
  simp [string_mk_data]

/-- The clamping step always yields exactly four options. -/
theorem clampOptions_length (options : List String) :
    (clampOptions options).length = 4 := by
  unfold clampOptions
  by_cases h : options.length < 4
  · simp only [h, if_true, List.length_append, List.length_take]
    have : padOptions.length = 4 := rfl
    omega
  · simp only [h, if_false, List.length_take]
    omega

/-- C1: for every input string, `_parse_response` returns exactly one
narrative string and exactly four option strings — never fewer than four
and never more. -/
theorem parse_response_exactly_four (response : String) :
    (parse_response response).2.length = 4 := by
  unfold parse_response
  split
  · simp [clampOptions_length]
  · simp [genericFallback]

/-- C6: when the delimiter token does not occur in the input, the parser
returns the full stripped input as the narrative together with the fixed
four-item generic fallback option list (and, being a total function,
never raises). -/
theorem parse_response_no_delimiter (response : String)
    (h : ¬ ((String.data ("DECISION_POINT")) <:+: response.data)) :
    parse_response response = (pyStrip response, genericFallback) := by
  unfold parse_response
  rw [pySplit_of_not_contains _ _ h]

/-- Witness for C6 at the spec's example input. -/
theorem parse_response_no_delimiter_witness :
    (¬ ((String.data ("DECISION_POINT")) <:+: (String.data ("Just narrative, no marker")))) ∧
    parse_response ("Just narrative, no marker") =
      (("Just narrative, no marker"), genericFallback) := by
  constructor
  · decide
  · rw [parse_response_no_delimiter ("Just narrative, no marker") (by decide)]
    decide

/-- C5 counterexample: with the delimiter present and a single matched
option line, the returned options are NOT just the captured texts in
document order — the parser pads the list to four with fixed defaults. -/
theorem parse_response_padding_cex :
    (parse_response ("Hello\nDECISION_POINT\n1. A")).2 ≠ [("A")] ∧
    parse_response ("Hello\nDECISION_POINT\n1. A") =
      (("Hello"),
       [("A"), ("Take a different approach"), ("Wait and observe"), ("Act decisively")]) := by
  constructor
  · decide
  · decide

/-- C5 (amended): when the input consists of a narrative part, the
delimiter `DECISION_POINT`, and an options part, with the delimiter
occurring in neither part, the parser returns the stripped narrative part
as the narrative and, as options, the captured texts of the option lines
of the options part in document order, truncated to the first four and
padded to four with fixed defaults when fewer match. -/
theorem parse_response_delimiter (a b : String)
    (ha : ¬ ((String.data ("DECISION_POINT")) <:+: a.data))
    (hb : ¬ ((String.data ("DECISION_POINT")) <:+: b.data)) :
    parse_response (a ++ ("DECISION_POINT") ++ b) =
      (pyStrip a, clampOptions (extractOptions (pyStrip b))) := by
  unfold parse_response
  rw [pySplit_double ("DECISION_POINT") a b decisionPoint_noSelfOverlap (by decide) ha hb]

/-- Witness for the amended C5 at the spec's example input: parsing
`"Hello\nDECISION_POINT\n1. A\n2. B\n3. C\n4. D"` yields narrative
`"Hello"` and options `["A","B","C","D"]`. -/
theorem parse_response_delimiter_witness :
    parse_response (("Hello\nDECISION_POINT\n1. A\n2. B\n3. C\n4. D")) =
      (("Hello"), [("A"), ("B"), ("C"), ("D")]) := by
  have he : (("Hello\n") ++ ("DECISION_POINT") ++ ("\n1. A\n2. B\n3. C\n4. D") : String)
      = ("Hello\nDECISION_POINT\n1. A\n2. B\n3. C\n4. D") := by decide
  have h := parse_response_delimiter ("Hello\n") ("\n1. A\n2. B\n3. C\n4. D")
    (by decide) (by decide)
  rw [he] at h
  rw [h]
  decide

/-- A successful invocation returns immediately with no further sleeping. -/
theorem retryGo_ok {α : Type} {func : Nat → Except String α} {d : ℚ} {v : α}
    (r attempt : Nat) (sleeps : List ℚ) (calls : Nat)
    (h : func attempt = Except.ok v) :
    retryGo func d r attempt sleeps calls = (Except.ok v, sleeps, calls + 1) := by
  cases r <;> simp [retryGo, h]

/-- On the last allowed attempt any error is re-raised. -/
theorem retryGo_err_last {α : Type} {func : Nat → Except String α} {d : ℚ} {e : String}
    (attempt : Nat) (sleeps : List ℚ) (calls : Nat)
    (h : func attempt = Except.error e) :
    retryGo func d 0 attempt sleeps calls = (Except.error e, sleeps, calls + 1) := by
  simp [retryGo, h]

/-- With retries remaining, a rate-limited error sleeps
`base_delay * 2 ^ attempt` and retries. -/
theorem retryGo_err_rate {α : Type} {func : Nat → Except String α} {d : ℚ} {e : String}
    (r attempt : Nat) (sleeps : List ℚ) (calls : Nat)
    (h : func attempt = Except.error e) (hr : isRateLimit e = true) :
    retryGo func d (r + 1) attempt sleeps calls =
      retryGo func d r (attempt + 1) (sleeps ++ [d * 2 ^ attempt]) (calls + 1) := by
  simp [retryGo, h, hr]

/-- With retries remaining, a non-rate-limited error is re-raised at once. -/
theorem retryGo_err_other {α : Type} {func : Nat → Except String α} {d : ℚ} {e : String}
    (r attempt : Nat) (sleeps : List ℚ) (calls : Nat)
    (h : func attempt = Except.error e) (hr : isRateLimit e = false) :
    retryGo func d (r + 1) attempt sleeps calls = (Except.error e, sleeps, calls + 1) := by
  simp [retryGo, h, hr]

/-- C3: with the default `max_retries = 3`, (i) an operation failing twice
with rate-limited errors and succeeding on the third invocation returns the
success value, having slept `base_delay` then `2 * base_delay` and invoked
the operation three times; (ii) when every attempt fails rate-limited, the
retries are exhausted after sleeping `base_delay`, `2 * base_delay`,
`4 * base_delay` and the last error propagates. -/
theorem retry_with_backoff_spec :
    (∀ (α : Type) (func : Nat → Except String α) (d : ℚ) (e0 e1 : String) (v : α),
      func 0 = Except.error e0 → isRateLimit e0 = true →
      func 1 = Except.error e1 → isRateLimit e1 = true →
      func 2 = Except.ok v →
      retry_with_backoff func 3 d = (Except.ok v, [d, 2 * d], 3)) ∧
    (∀ (α : Type) (func : Nat → Except String α) (d : ℚ) (es : Nat → String),
      (∀ i, i ≤ 3 → func i = Except.error (es i) ∧ isRateLimit (es i) = true) →
      retry_with_backoff func 3 d = (Except.error (es 3), [d, 2 * d, 4 * d], 4)) := by
  constructor
  · intro α func d e0 e1 v h0 hr0 h1 hr1 h2
    unfold retry_with_backoff
    show retryGo func d (2 + 1) 0 [] 0 = _
    rw [retryGo_err_rate 2 0 [] 0 h0 hr0]
    show retryGo func d (1 + 1) 1 _ 1 = _
    rw [retryGo_err_rate 1 1 _ 1 h1 hr1]
    rw [retryGo_ok 1 2 _ 2 h2]
    norm_num [mul_comm]
  · intro α func d es hall
    obtain ⟨h0, hr0⟩ := hall 0 (by norm_num)
    obtain ⟨h1, hr1⟩ := hall 1 (by norm_num)
    obtain ⟨h2, hr2⟩ := hall 2 (by norm_num)
    obtain ⟨h3, _⟩ := hall 3 (by norm_num)
    unfold retry_with_backoff
    show retryGo func d (2 + 1) 0 [] 0 = _
    rw [retryGo_err_rate 2 0 [] 0 h0 hr0]
    show retryGo func d (1 + 1) 1 _ 1 = _
    rw [retryGo_err_rate 1 1 _ 1 h1 hr1]
    show retryGo func d (0 + 1) 2 _ 2 = _
    rw [retryGo_err_rate 0 2 _ 2 h2 hr2]
    rw [retryGo_err_last 3 _ 3 h3]
    norm_num [mul_comm]

/-- Witness for C3 at a concrete operation failing twice with
`"429 rate limit"` then returning `7`, with `base_delay = 1`. -/
theorem retry_with_backoff_spec_witness :
    retry_with_backoff
      (fun i => if i < 2 then Except.error ("429 rate limit") else Except.ok (7 : Nat)) 3 1
      = (Except.ok 7, [1, 2], 3) := by
  have h := retry_with_backoff_spec.1 Nat
    (fun i => if i < 2 then Except.error ("429 rate limit") else Except.ok (7 : Nat))
    1 ("429 rate limit") ("429 rate limit") 7 rfl (by decide) rfl (by decide) rfl
  simpa using h

/-- C4: an operation whose first failure carries a message matching no
rate-limit indicator propagates that error immediately: no sleep is
recorded and the operation is invoked exactly once, for every
`max_retries` and `base_delay`. -/
theorem retry_with_backoff_nonrate (α : Type) (func : Nat → Except String α)
    (max_retries : Nat) (d : ℚ) (e : String)
    (h0 : func 0 = Except.error e) (hr : isRateLimit e = false) :
    retry_with_backoff func max_retries d = (Except.error e, [], 1) := by
  unfold retry_with_backoff
  cases max_retries with
  | zero => rw [retryGo_err_last 0 [] 0 h0]
  | succ r => rw [retryGo_err_other r 0 [] 0 h0 hr]

/-- Witness for C4 at a concrete operation failing with `"boom"`. -/
theorem retry_with_backoff_nonrate_witness :
    retry_with_backoff (fun _ => (Except.error ("boom") : Except String Nat)) 3 1
      = (Except.error ("boom"), [], 1) :=
  retry_with_backoff_nonrate Nat (fun _ => Except.error ("boom")) 3 1 ("boom")
    rfl (by decide)

/-- C7 counterexample: the claimed characterisation of `validate` fails on
both readings of "length".  `"a "` has raw length 2 (in [2,100]) but the
code rejects it because the STRIPPED name has length 1; `"ab"` followed by
99 spaces has stripped length 2 but the code rejects it because the RAW
name has length 101. -/
theorem validate_cex :
    (¬ (((Character.validate
          { name := ("a "), background := ("abcdefghij"), traits := [],
            goals := ("abcdefghij"), world := ("fantasy") }).1 = true) ↔
        (2 ≤ ("a " : String).length ∧ ("a " : String).length ≤ 100 ∧
         10 ≤ ("abcdefghij" : String).length ∧ ("abcdefghij" : String).length ≤ 1000 ∧
         10 ≤ ("abcdefghij" : String).length ∧ ("abcdefghij" : String).length ≤ 500 ∧
         ("fantasy" : String) ≠ ("")))) ∧
    (¬ (((Character.validate
          { name := ("ab") ++ String.mk (List.replicate 99 ' '), background := ("abcdefghij"),
            traits := [], goals := ("abcdefghij"), world := ("fantasy") }).1 = true) ↔
        (2 ≤ (pyStrip (("ab") ++ String.mk (List.replicate 99 ' '))).length ∧
         (pyStrip (("ab") ++ String.mk (List.replicate 99 ' '))).length ≤ 100 ∧
         10 ≤ ("abcdefghij" : String).length ∧ ("abcdefghij" : String).length ≤ 1000 ∧
         10 ≤ ("abcdefghij" : String).length ∧ ("abcdefghij" : String).length ≤ 500 ∧
         ("fantasy" : String) ≠ ("")))) := by
  constructor
  · decide
  · decide

/-- Appending an issue under a condition yields an empty list iff the
condition is false and the previous list was already empty. -/
theorem ite_append_eq_nil_iff (cond : Prop) [Decidable cond] (l : List String) (x : String) :
    ((if cond then l ++ [x] else l) = []) ↔ (¬ cond ∧ l = []) := by
  split_ifs with h
  · simp [h]
  · simp [h]

/-- C7 (amended): `validate` succeeds iff the stripped name has at least 2
characters and the raw name at most 100, the stripped background at least
10 and the raw background at most 1000, the stripped goals at least 10 and
the raw goals at most 500, and the world is non-empty. -/
theorem validate_iff (c : Character) :
    (c.validate).1 = true ↔
      (2 ≤ (pyStrip c.name).length ∧ c.name.length ≤ 100 ∧
       10 ≤ (pyStrip c.background).length ∧ c.background.length ≤ 1000 ∧
       10 ≤ (pyStrip c.goals).length ∧ c.goals.length ≤ 500 ∧
       c.world ≠ ("")) := by
  unfold Character.validate
  simp only [beq_iff_eq, List.length_eq_zero, ite_append_eq_nil_iff, and_true]
  constructor
  · intro h
    obtain ⟨h7, h6, h5, h4, h3, h2, h1⟩ := h
    push_neg at h1 h2 h3 h5 h6 h7
    exact ⟨h1.2, by omega, h2.2, by omega, h3.2, by omega, h4⟩
  · rintro ⟨hn, hn100, hb, hb1000, hg, hg500, hw⟩
    refine ⟨by omega, by omega, by omega, hw, ?_, ?_, ?_⟩
    · rintro (heq | hlt)
      · rw [heq] at hg
        have h0 : (pyStrip ("")).length = 0 := rfl
        omega
      · omega
    · rintro (heq | hlt)
      · rw [heq] at hb
        have h0 : (pyStrip ("")).length = 0 := rfl
        omega
      · omega
    · rintro (heq | hlt)
      · rw [heq] at hn
        have h0 : (pyStrip ("")).length = 0 := rfl
        omega
      · omega

/-- Witness for the amended C7 at a concrete valid character. -/
theorem validate_iff_witness :
    (Character.validate
      { name := ("Test Hero"), background := ("A brave adventurer seeking destiny."),
        traits := [("brave")], goals := ("To find the artifact."),
        world := ("fantasy") }).1 = true :=
  (validate_iff
    { name := ("Test Hero"), background := ("A brave adventurer seeking destiny."),
      traits := [("brave")], goals := ("To find the artifact."),
      world := ("fantasy") }).mpr (by decide)

/-- Dropping a prefix of `p`-satisfying elements from an append stops
inside the left part when the left part contains a failing element. -/
theorem dropWhile_append_of_mem {p : Char → Bool} :
    ∀ (l1 l2 : List Char), (∃ c ∈ l1, p c = false) →
      (l1 ++ l2).dropWhile p = l1.dropWhile p ++ l2 := by
  intro l1
  induction l1 with
  | nil =>
    intro l2 h
    simp at h
  | cons c cs ih =>
    intro l2 h
    rcases h with ⟨x, hx, hpx⟩
    simp only [List.cons_append, List.dropWhile_cons]
    by_cases hc : p c = true
    · simp only [hc, if_true]
      apply ih
      rcases List.mem_cons.mp hx with rfl | hmem
      · rw [hc] at hpx
        cases hpx
      · exact ⟨x, hmem, hpx⟩
    · have hcf : p c = false := by
        cases hval : p c with
        | false => rfl
        | true => exact absurd hval hc
      simp [hcf]

/-- Stripping only removes outer whitespace: any interior segment guarded
on both sides by a non-whitespace character survives as a contiguous
substring. -/
theorem infix_pyStripList (l pre mid post : List Char)
    (hl : l = pre ++ (mid ++ post))
    (hpre : ∃ c ∈ pre, isPySpace c = false)
    (hpost : ∃ c ∈ post, isPySpace c = false) :
    mid <:+: pyStripList l := by
  subst hl
  unfold pyStripList
  rw [dropWhile_append_of_mem pre (mid ++ post) hpre]
  rw [List.reverse_append, List.reverse_append]
  rw [List.append_assoc]
  have hpost' : ∃ c ∈ post.reverse, isPySpace c = false := by
    rcases hpost with ⟨x, hx, hpx⟩
    exact ⟨x, List.mem_reverse.mpr hx, hpx⟩
  rw [dropWhile_append_of_mem post.reverse _ hpost']
  rw [List.reverse_append, List.reverse_append, List.reverse_reverse, List.reverse_reverse]
  refine ⟨(pre.dropWhile isPySpace), (post.reverse.dropWhile isPySpace).reverse, ?_⟩
  simp [List.append_assoc]

theorem data_mk (l : List Char) : (String.mk l).data = l := rfl

set_option maxRecDepth 16384 in
/-- C8 counterexample: with world `"cultivation"` the prompt renders the
world through `str.title()` as `"Cultivation"`, so the world identifier
does not occur verbatim in `to_prompt()`. -/
theorem to_prompt_cex :
    ¬ ((String.data ("Li Wei") <:+:
          (Character.to_prompt
            { name := ("Li Wei"), background := ("an orphan"), traits := [],
              goals := ("seek power"), world := ("cultivation") }).data) ∧
       (String.data ("cultivation") <:+:
          (Character.to_prompt
            { name := ("Li Wei"), background := ("an orphan"), traits := [],
              goals := ("seek power"), world := ("cultivation") }).data)) := by
  intro h
  exact absurd h.2 (by decide)

set_option maxRecDepth 16384 in
/-- C8 (amended): for every character, `to_prompt()` contains the
character's name verbatim and the TITLE-CASED world identifier
(`str.title()` of the world) as contiguous substrings. -/
theorem to_prompt_contains (c : Character) :
    c.name.data <:+: (c.to_prompt).data ∧ (pyTitle c.world).data <:+: (c.to_prompt).data := by
  unfold Character.to_prompt pyStrip
  simp only [data_mk]
  constructor
  · refine infix_pyStripList _ (String.data ("\nPROTAGONIST PROFILE:\nName: ")) c.name.data
      (String.data (("\nWorld: ") ++ pyTitle c.world ++ ("\nBackground: ") ++ c.background ++
        ("\nPersonality Traits: ") ++
        (if c.traits = [] then ("No specific traits defined")
         else String.intercalate (", ") c.traits) ++
        ("\nGoals & Motivations: ") ++ c.goals ++
        ("\n\nThis character is the protagonist of the story. All narrative should be written from their perspective or about their actions and decisions.\n")))
      ?_ ?_ ?_
    · simp [string_data_append, List.append_assoc]
    · exact ⟨'P', by decide, by decide⟩
    · refine ⟨'W', ?_, by decide⟩
      repeat
        first
        | (rw [string_data_append]; apply List.mem_append_left)
      decide
  · refine infix_pyStripList _
      (String.data (("\nPROTAGONIST PROFILE:\nName: ") ++ c.name ++ ("\nWorld: ")))
      (pyTitle c.world).data
      (String.data (("\nBackground: ") ++ c.background ++
        ("\nPersonality Traits: ") ++
        (if c.traits = [] then ("No specific traits defined")
         else String.intercalate (", ") c.traits) ++
        ("\nGoals & Motivations: ") ++ c.goals ++
        ("\n\nThis character is the protagonist of the story. All narrative should be written from their perspective or about their actions and decisions.\n")))
      ?_ ?_ ?_
    · simp [string_data_append, List.append_assoc]
    · refine ⟨'P', ?_, by decide⟩
      repeat
        first
        | (rw [string_data_append]; apply List.mem_append_left)
      decide
    · refine ⟨'B', ?_, by decide⟩
      repeat
        first
        | (rw [string_data_append]; apply List.mem_append_left)
      decide

/-- `Except` bind on a success reduces. -/
theorem except_ok_bind {e a b : Type} (x : a) (f : a → Except e b) :
    (Except.ok x >>= f) = f x := rfl

/-- `Except` map on a success reduces. -/
theorem except_map_ok {e a b : Type} (f : a → b) (x : a) :
    (f <$> (Except.ok x : Except e a)) = Except.ok (f x) := rfl

/-- The `List.mapM` loop over an `Except`-valued right inverse succeeds and
returns the original elements. -/
theorem mapM_loop_roundtrip {a b : Type} (f : b → Except String a) (g : a → b)
    (hfg : ∀ x, f (g x) = Except.ok x) :
    ∀ (l acc : List a),
      List.mapM.loop f (l.map g) acc = Except.ok (acc.reverse ++ l) := by
  intro l
  induction l with
  | nil =>
    intro acc
    simp only [List.map_nil, List.mapM.loop, List.append_nil]
    rfl
  | cons x xs ih =>
    intro acc
    simp only [List.map_cons, List.mapM.loop, hfg x, except_ok_bind, ih (x :: acc)]
    simp

/-- `List.mapM` over an `Except`-valued right inverse succeeds. -/
theorem mapM_map_ok {a b : Type} (f : b → Except String a) (g : a → b)
    (hfg : ∀ x, f (g x) = Except.ok x) (l : List a) :
    List.mapM.loop f (l.map g) [] = Except.ok l := by
  have h := mapM_loop_roundtrip f g hfg l []
  simpa using h

/-- Projecting a list of JSON strings back out succeeds. -/
theorem mapM_asStr_map_str (l : List String) :
    (l.map Json.str).mapM Json.asStr = Except.ok l :=
  mapM_map_ok Json.asStr Json.str (fun _ => rfl) l

/-- A story chunk survives `to_dict` / `from_dict` unchanged. -/
theorem storyChunk_roundtrip (c : StoryChunk) :
    StoryChunk.from_dict (StoryChunk.to_dict c) = Except.ok c := by
  unfold StoryChunk.from_dict StoryChunk.to_dict
  simp [Json.lookupKey, Json.lookupKeyD, Json.asStr, Json.asArr, List.lookup,
        DateTime.isoformat, DateTime.fromisoformat, except_ok_bind, except_map_ok]
  rw [mapM_map_ok Json.asStr Json.str (fun _ => rfl) c.decision_options]
  rfl

/-- A decision entry survives `to_dict` / `from_dict` unchanged. -/
theorem decisionEntry_roundtrip (d : DecisionEntry) :
    DecisionEntry.from_dict (DecisionEntry.to_dict d) = Except.ok d := by
  unfold DecisionEntry.from_dict DecisionEntry.to_dict
  simp [Json.lookupKey, Json.lookupKeyD, Json.asStr, Json.asArr, Json.asInt, List.lookup,
        DateTime.isoformat, DateTime.fromisoformat, except_ok_bind, except_map_ok]
  rw [mapM_map_ok Json.asStr Json.str (fun _ => rfl) d.options_available]
  rfl

/-- Chunk lists survive serialisation. -/
theorem mapM_chunk_roundtrip (l : List StoryChunk) :
    (l.map StoryChunk.to_dict).mapM StoryChunk.from_dict = Except.ok l :=
  mapM_map_ok StoryChunk.from_dict StoryChunk.to_dict storyChunk_roundtrip l

/-- Decision lists survive serialisation. -/
theorem mapM_decision_roundtrip (l : List DecisionEntry) :
    (l.map DecisionEntry.to_dict).mapM DecisionEntry.from_dict = Except.ok l :=
  mapM_map_ok DecisionEntry.from_dict DecisionEntry.to_dict decisionEntry_roundtrip l

/-- C9: serialising a `StoryHistory` and deserialising the result succeeds
and yields a history with identical session identifier, character name,
world identifier, number of story chunks and number of decisions (indeed
the identical history). -/
theorem storyHistory_roundtrip (h : StoryHistory) :
    ∃ h2, StoryHistory.from_json (StoryHistory.to_json h) = Except.ok h2 ∧
      h2.session_id = h.session_id ∧ h2.character_name = h.character_name ∧
      h2.world_type = h.world_type ∧
      h2.story_chunks.length = h.story_chunks.length ∧
      h2.decisions.length = h.decisions.length := by
  refine ⟨h, ?_, rfl, rfl, rfl, rfl, rfl⟩
  unfold StoryHistory.from_json StoryHistory.to_json StoryHistory.from_dict StoryHistory.to_dict
  simp [Json.lookupKey, Json.lookupKeyD, Json.asStr, Json.asArr, List.lookup,
        DateTime.isoformat, DateTime.fromisoformat, except_ok_bind, except_map_ok]
  rw [mapM_map_ok StoryChunk.from_dict StoryChunk.to_dict storyChunk_roundtrip h.story_chunks]
  rw [except_ok_bind]
  rw [mapM_map_ok DecisionEntry.from_dict DecisionEntry.to_dict decisionEntry_roundtrip h.decisions]
  rfl

/-- C10 counterexample: on a history with two chunks `"A"`, `"B"` and one
decision `"go"`, `get_recent_context(3)` is not the chunk texts
concatenated (with or without the blank-line separator): a last-decision
line is appended. -/
theorem get_recent_context_cex :
    (StoryHistory.get_recent_context cexHistory 3 =
      ("A\n\nB\n\n\n[Last Decision: go]")) ∧
    StoryHistory.get_recent_context cexHistory 3 ≠ ("A\n\nB") ∧
    StoryHistory.get_recent_context cexHistory 3 ≠ ("AB") := by
  refine ⟨by decide, by decide, by decide⟩

/-- C10 (amended): for `n ≥ 1`, `get_recent_context(n)` on a history with
`k` chunks returns the texts of the last `min(n,k)` chunks, in order,
joined by blank lines and followed by a last-decision line when at least
one decision exists and the chunks outnumber the decisions; on a history
with no chunks it returns the empty string.  (For `n = 0` the Python slice
`[-0:]` keeps every chunk, so the claimed `min(n,k)` behaviour fails
there.) -/
theorem get_recent_context_spec (h : StoryHistory) (n : Nat) (hn : 1 ≤ n) :
    h.get_recent_context n =
      if h.story_chunks = [] then ("")
      else
        String.intercalate ("\n\n")
          (((h.story_chunks.reverse.take n).reverse.map StoryChunk.text) ++
           (if h.decisions ≠ [] ∧ h.decisions.length < h.story_chunks.length then
              [("\n[Last Decision: ") ++
               ((h.decisions.getLast?.map DecisionEntry.decision_text).getD ("")) ++ ("]")]
            else [])) := by
  unfold StoryHistory.get_recent_context
  have hrt : (h.story_chunks.reverse.take n).reverse =
      h.story_chunks.drop (h.story_chunks.length - n) := by
    rw [← List.rtake_eq_reverse_take_reverse]
    rfl
  rw [hrt]
  by_cases hc : h.story_chunks = []
  · simp [hc]
  · have hn0 : ¬ (n = 0) := by omega
    simp only [hc, if_false, hn0]
    by_cases hd : h.decisions ≠ [] ∧ h.decisions.length < h.story_chunks.length
    · simp [hd]
    · simp [hd]

/-- Witness for the amended C10 at the two-chunk history and `n = 3`. -/
theorem get_recent_context_spec_witness :
    (1 ≤ 3) ∧ StoryHistory.get_recent_context cexHistory 3 =
      ("A\n\nB\n\n\n[Last Decision: go]") := by
  refine ⟨by decide, ?_⟩
  rw [get_recent_context_spec cexHistory 3 (by decide)]
  decide

/-- C2: the history invariant `len(decisions) <= len(story_chunks)` is
violated by the code.  After a successful start (one chunk), a decision
made while the engine is unavailable is recorded with no chunk appended
(decisions = chunks = 1), and a second decision — the previous options are
still displayed and the retry button re-invokes `make_decision` — records
a second `DecisionEntry`, leaving two decisions against one chunk. -/
theorem history_invariant_violated :
    failedRetryTrace.history.decisions.length = 2 ∧
    failedRetryTrace.history.story_chunks.length = 1 ∧
    ¬ (failedRetryTrace.history.decisions.length ≤
        failedRetryTrace.history.story_chunks.length) := by
  refine ⟨by decide, by decide, by decide⟩
